import Mathlib

/-
Verification of the level-progression and achievement engine of the
Python-Learning-Adventure repository.

The definitions below are a shallow embedding of the Python sources:
  game_logic/level_loader.py   (catalog, availability, scoring, submission)
  game_logic/player_state.py   (player record, statistics recalculation)
  game_logic/achievements.py   (achievement evaluation, shop purchases)
  game_logic.py                (legacy engine: shop purchases)

Conventions of the embedding:
  - Python floats are modelled as exact rationals; score percentages are
    computed with exact division, as the sources compute
    correct_count / total_questions * 100.
  - Python dicts keyed by str(level_id) are modelled as association lists
    over Nat keys (str on Nat is injective); insertion updates the first
    matching key in place and appends otherwise, matching dict semantics.
  - Presentation-only fields of the source dicts (titles, topics, feedback
    strings, emoji, timestamps) are not modelled; record fields that the
    engine logic reads are kept with their source names.
-/

namespace PLA

/-- Association-list lookup with a default, modelling dict.get(k, default). -/
def dictGet : List (Nat × Nat) → Nat → Nat → Nat
  | [], _, dflt => dflt
  | p :: rest, k, dflt => if p.1 = k then p.2 else dictGet rest k dflt

/-- Association-list update, modelling d[k] = v: the first entry with the key
is replaced in place; a missing key is appended at the end. -/
def dictSet : List (Nat × Nat) → Nat → Nat → List (Nat × Nat)
  | [], k, v => [(k, v)]
  | p :: rest, k, v => if p.1 = k then (k, v) :: rest else p :: dictSet rest k v

/-- Value of progression_rules.minimum_score in LevelLoader. -/
def minimum_score : Nat := 70

/-- Value of progression_rules.test_minimum_score in LevelLoader. -/
def test_minimum_score : Nat := 80

/-- Value of progression_rules.max_retries in LevelLoader. -/
def max_retries : Nat := 3

/-- Value of progression_rules.retry_allowed in LevelLoader. -/
def retry_allowed : Bool := true

/-- Value of progression_rules.sequential_unlock in LevelLoader. -/
def sequential_unlock : Bool := true

/-- Value of progression_rules.test_frequency in LevelLoader. -/
def test_frequency : Nat := 10

/-- Value of progression_rules.challenge_frequency in LevelLoader. -/
def challenge_frequency : Nat := 25

/-- A quiz question; only the index of the correct option is read by the
grading logic (text, options and explanation feed feedback strings only). -/
structure Question where
  correct : Nat
deriving Repr, DecidableEq

/-- The three level kinds produced by LevelLoader (dict key "type"). -/
inductive LevelType
  | lesson
  | test
  | challenge
deriving Repr, DecidableEq

/-- The fields of a catalog level dict that the engine logic reads.
The questions field models level.get(quiz-key, level.get(questions-key, []))
as read by validate_answer_submission: lessons carry their quiz, tests carry
their questions, challenge levels carry neither. -/
structure Level where
  id : Nat
  type : LevelType
  questions : List Question
  passing_score : Option Nat
  rewards_stars : Nat
  rewards_coins : Nat
  rewards_xp : Nat
  prerequisites : List Nat
deriving Repr, DecidableEq

/-- Models _generate_quiz_questions: every branch of the source returns a
single multiple-choice question whose correct index is 1. -/
def generate_quiz_questions : List Question := [{ correct := 1 }]

/-- Models _generate_test_questions: one question with correct index 1. -/
def generate_test_questions : List Question := [{ correct := 1 }]

/-- Models _calculate_prerequisites: level 1 has none; challenges require
range(max(1, id-10), id); tests require range(max(1, id-5), id); regular
lessons require the previous level. -/
def calculate_prerequisites (level_id : Nat) (level_type : LevelType) : List Nat :=
  if level_id = 1 then []
  else
    match level_type with
    | .challenge => List.range' (max 1 (level_id - 10)) (level_id - max 1 (level_id - 10))
    | .test => List.range' (max 1 (level_id - 5)) (level_id - max 1 (level_id - 5))
    | .lesson => [level_id - 1]

/-- Models _create_level together with the three _create_*_level builders,
keeping the fields the engine reads. The challenge branch is tested first,
as in the source, so ids divisible by both 10 and 25 are challenges. Only
test levels define a passing_score. -/
def create_level (level_id : Nat) : Level :=
  let is_test_level := level_id % test_frequency = 0
  let is_challenge_level := level_id % challenge_frequency = 0
  let base_xp := 50 + (level_id / 5) * 10
  let base_coins := 20 + (level_id / 10) * 5
  if is_challenge_level then
    { id := level_id, type := .challenge, questions := [],
      passing_score := none,
      rewards_stars := 5, rewards_coins := base_coins * 3, rewards_xp := base_xp * 4,
      prerequisites := calculate_prerequisites level_id .challenge }
  else if is_test_level then
    { id := level_id, type := .test, questions := generate_test_questions,
      passing_score := some test_minimum_score,
      rewards_stars := 3, rewards_coins := base_coins * 2, rewards_xp := base_xp * 3,
      prerequisites := calculate_prerequisites level_id .test }
  else
    { id := level_id, type := .lesson, questions := generate_quiz_questions,
      passing_score := none,
      rewards_stars := 1, rewards_coins := base_coins, rewards_xp := base_xp,
      prerequisites := calculate_prerequisites level_id .lesson }

/-- Models _load_all_levels: 100 levels with ids 1..100. -/
def levels : List Level := (List.range' 1 100).map create_level

/-- Models get_level_data without a player argument: first catalog level with
the requested id, None when absent. Player personalization only adds a
suggestion string and is not modelled. -/
def get_level_data (level_id : Nat) : Option Level :=
  levels.find? (fun l => l.id == level_id)

/-- One record of performance_history. Records appended by
_record_level_attempt carry level_id, score_percentage, passed and
attempt_number; completion_time, level_type and the hour parsed from the
timestamp are read only by the achievement statistics and are absent (None)
in records produced by _record_level_attempt. -/
structure PerfRecord where
  level_id : Nat
  score_percentage : ℚ
  passed : Bool
  attempt_number : Nat
  completion_time : Option Nat
  level_type : Option LevelType
  timestamp_hour : Option Nat
deriving Repr, DecidableEq

/-- An entry of player.achievements as built by _create_earned_achievement;
the earned_at timestamp and display fields are not modelled. -/
structure EarnedAchievement where
  id : String
  tier : String
deriving Repr, DecidableEq

/-- The PlayerState fields that the claims read and update. -/
structure Player where
  completed_levels : List Nat
  performance_history : List PerfRecord
  level_stars : List (Nat × Nat)
  level_attempts : List (Nat × Nat)
  total_xp : Nat
  total_coins : Nat
  learning_streak : Nat
  total_time_spent : Nat
  achievements : List EarnedAchievement
  purchased_rewards : List String
deriving Repr, DecidableEq

/-- Body of is_level_available after the catalog lookup: level 1 is always
available; with recorded prerequisites all of them must be completed;
otherwise sequential unlocking requires the previous id to be completed. -/
def level_available_with (level : Level) (level_id : Nat) (player : Player) : Bool :=
  if level_id = 1 then true
  else if !level.prerequisites.isEmpty then
    level.prerequisites.all (fun prereq => decide (prereq ∈ player.completed_levels))
  else if sequential_unlock then
    decide ((level_id - 1) ∈ player.completed_levels)
  else true

/-- Models is_level_available: false for unknown levels, then the body above. -/
def is_level_available (level_id : Nat) (player : Player) : Bool :=
  match get_level_data level_id with
  | none => false
  | some level => level_available_with level level_id player

/-- The scoring fields of the dict returned by _calculate_score_and_feedback
(the per-question feedback list is presentation only). -/
structure ScoreResult where
  correct_count : Nat
  total_questions : Nat
  score_percentage : ℚ
deriving Repr, DecidableEq

/-- Models _calculate_score_and_feedback: count answers equal to the correct
index over zip(questions, answers), then the percentage with a zero guard.
The source computes correct_count / total_questions * 100; that exact
rational is written mkRat (correct_count * 100) total_questions here. -/
def calculate_score_and_feedback (questions : List Question) (answers : List Nat) :
    ScoreResult :=
  let correct_count := (questions.zip answers).countP (fun qa => qa.2 == qa.1.correct)
  let total_questions := questions.length
  let score_percentage : ℚ :=
    if total_questions > 0 then mkRat (correct_count * 100) total_questions else 0
  { correct_count := correct_count, total_questions := total_questions,
    score_percentage := score_percentage }

/-- Models _calculate_stars_earned in level_loader.py. -/
def calculate_stars_earned (score_percentage : ℚ) : Nat :=
  if score_percentage ≥ 95 then 3
  else if score_percentage ≥ 85 then 2
  else if score_percentage ≥ 70 then 1
  else 0

/-- Models _get_next_level_id: the next id when it exists in the catalog. -/
def get_next_level_id (current_level_id : Nat) : Option Nat :=
  match get_level_data (current_level_id + 1) with
  | some _ => some (current_level_id + 1)
  | none => none

/-- Models _record_level_attempt: bump the attempt counter for the level and
append a record to performance_history. -/
def record_level_attempt (player : Player) (level_id : Nat) (score : ℚ)
    (passed : Bool) : Player :=
  let current_attempts := dictGet player.level_attempts level_id 0
  let new_attempts := dictSet player.level_attempts level_id (current_attempts + 1)
  let record : PerfRecord :=
    { level_id := level_id, score_percentage := score, passed := passed,
      attempt_number := current_attempts + 1,
      completion_time := none, level_type := none, timestamp_hour := none }
  { player with
      level_attempts := new_attempts,
      performance_history := player.performance_history ++ [record] }

/-- Models _can_retry_level: retries allowed and attempts below the cap. -/
def can_retry_level (player : Player) (level_id : Nat) : Bool :=
  retry_allowed && decide (dictGet player.level_attempts level_id 0 < max_retries)

/-- The progression dict built by _handle_level_completion. -/
structure ProgressionData where
  level_completed : Nat
  stars_earned : Nat
  next_level_id : Option Nat
  next_level_unlocked : Bool
  rewards_coins : Nat
  rewards_xp : Nat
deriving Repr, DecidableEq

/-- Models _handle_level_completion: append the level id to completed_levels
when absent, raise the stored stars only when the new stars are strictly
greater, then report the next level and the catalog rewards. Availability of
the next level is evaluated on the already-updated player, as in the source. -/
def handle_level_completion (player : Player) (level_id : Nat) (vr : ScoreResult) :
    ProgressionData × Player :=
  let player :=
    if level_id ∈ player.completed_levels then player
    else { player with completed_levels := player.completed_levels ++ [level_id] }
  let stars := calculate_stars_earned vr.score_percentage
  let player :=
    if stars > dictGet player.level_stars level_id 0 then
      { player with level_stars := dictSet player.level_stars level_id stars }
    else player
  let next_level_id := get_next_level_id level_id
  let next_level_unlocked :=
    match next_level_id with
    | some nid => is_level_available nid player
    | none => false
  let rewards :=
    match get_level_data level_id with
    | some level => (level.rewards_coins, level.rewards_xp)
    | none => (0, 0)
  ({ level_completed := level_id, stars_earned := stars,
     next_level_id := next_level_id, next_level_unlocked := next_level_unlocked,
     rewards_coins := rewards.1, rewards_xp := rewards.2 }, player)

/-- The failure cases of validate_answer_submission (its dicts with
success = False and the respective error strings). -/
inductive SubmissionError
  | levelNotFound
  | noQuestions
  | answerCountMismatch
deriving Repr, DecidableEq

/-- The fields of the success dict of validate_answer_submission that the
engine logic reads (feedback and detailed_results are presentation only). -/
structure SubmissionResult where
  passed : Bool
  score_percentage : ℚ
  correct_answers : Nat
  total_questions : Nat
  progression : Option ProgressionData
  retry_available : Bool
deriving Repr, DecidableEq

/-- The dict returned by validate_answer_submission: success False with an
error, or success True with the graded result. -/
inductive Submission
  | rejected (error : SubmissionError)
  | graded (result : SubmissionResult)
deriving Repr, DecidableEq

/-- Body of validate_answer_submission after the three input guards: grade,
compare against passing_score (default minimum_score), record the attempt,
and on a pass run the completion handler. The attempt is recorded and scored
without any check of the retry cap; retry_available is merely reported,
computed on the updated player. -/
def graded_submission (level : Level) (level_id : Nat) (player : Player)
    (submitted_answers : List Nat) : Submission × Player :=
  let vr := calculate_score_and_feedback level.questions submitted_answers
  let min_score := level.passing_score.getD minimum_score
  let passed := decide (vr.score_percentage ≥ (min_score : ℚ))
  let player := record_level_attempt player level_id vr.score_percentage passed
  let pp : Option ProgressionData × Player :=
    if passed then
      let hp := handle_level_completion player level_id vr
      (some hp.1, hp.2)
    else (none, player)
  (.graded { passed := passed, score_percentage := vr.score_percentage,
             correct_answers := vr.correct_count,
             total_questions := vr.total_questions,
             progression := pp.1,
             retry_available := can_retry_level pp.2 level_id }, pp.2)

/-- Models validate_answer_submission: look up the level, reject when it is
missing, has no questions, or the answer count differs; otherwise process
the graded submission. Every rejection returns the player untouched. -/
def validate_answer_submission (level_id : Nat) (player : Player)
    (submitted_answers : List Nat) :
    Submission × Player :=
  match get_level_data level_id with
  | none => (.rejected .levelNotFound, player)
  | some level =>
    if level.questions.isEmpty then (.rejected .noQuestions, player)
    else if submitted_answers.length ≠ level.questions.length then
      (.rejected .answerCountMismatch, player)
    else graded_submission level level_id player submitted_answers

/-- Star tier used when recalculate_player_stats in player_state.py rebuilds
level_stars from the best passing score of each level. -/
def recalc_star_tier (best_score : ℚ) : Nat :=
  if best_score ≥ 90 then 3
  else if best_score ≥ 80 then 2
  else if best_score ≥ 70 then 1
  else 0

/-- Models the level_stars rebuild of recalculate_player_stats: for each
level id occurring in the history, take the best score among passed records
and store its recalc tier; ids without a passed record get no entry. The
source iterates a Python set of ids; the dict it builds does not depend on
that order, so ids are visited in first-occurrence order here. -/
def recalc_level_stars (history : List PerfRecord) : List (Nat × Nat) :=
  ((history.map (fun r => r.level_id)).dedup).foldl
    (fun acc level_id =>
      let level_scores :=
        (history.filter (fun r => r.level_id == level_id && r.passed)).map
          (fun r => r.score_percentage)
      match level_scores with
      | [] => acc
      | s :: rest => dictSet acc level_id (recalc_star_tier (rest.foldl max s)))
    []

/-- The statistics snapshot built by _calculate_player_stats in
achievements.py. -/
structure AchStats where
  levels_completed : Nat
  perfect_scores : Nat
  learning_streak : Nat
  total_time_hours : ℚ
  fast_completion : Nat
  challenge_levels_completed : Nat
  night_completions : Nat
  early_completions : Nat
deriving Repr, DecidableEq

/-- Models _calculate_player_stats: counters from the player fields plus one
pass over performance_history. A record with no completion_time never counts
as fast (the source default is infinity); the night check (hour at least 22
or below 6) is tested before the early check (hour below 7), so only hour 6
counts as early, as in the source. -/
def calculate_player_stats (player : Player) : AchStats :=
  let base : AchStats :=
    { levels_completed := player.completed_levels.length
      perfect_scores := 0
      learning_streak := player.learning_streak
      total_time_hours := mkRat player.total_time_spent 3600
      fast_completion := 0
      challenge_levels_completed := 0
      night_completions := 0
      early_completions := 0 }
  player.performance_history.foldl
    (fun stats record =>
      let stats :=
        if record.score_percentage = 100 then
          { stats with perfect_scores := stats.perfect_scores + 1 }
        else stats
      let stats :=
        match record.completion_time with
        | some t => if t < 120 then
            { stats with fast_completion := stats.fast_completion + 1 }
          else stats
        | none => stats
      let stats :=
        if record.level_type = some .challenge then
          { stats with challenge_levels_completed := stats.challenge_levels_completed + 1 }
        else stats
      match record.timestamp_hour with
      | some hour =>
        if hour ≥ 22 ∨ hour < 6 then
          { stats with night_completions := stats.night_completions + 1 }
        else if hour < 7 then
          { stats with early_completions := stats.early_completions + 1 }
        else stats
      | none => stats)
    base

/-- The statistic a condition string compares, as written in the source
condition of each achievement definition. -/
inductive StatName
  | levels_completed
  | perfect_scores
  | learning_streak
  | total_time_hours
  | fast_completion
  | challenge_levels_completed
  | night_completions
  | early_completions
deriving Repr, DecidableEq

/-- An achievement definition: id, tier and its condition, every source
condition being a comparison of one statistic against a threshold. -/
structure AchievementDef where
  id : String
  tier : String
  stat : StatName
  threshold : Nat
deriving Repr, DecidableEq

/-- Models _load_achievement_definitions (name, description, icon and the
hidden flag are presentation only). -/
def achievement_definitions : List AchievementDef :=
  [ { id := "first_steps", tier := "bronze", stat := .levels_completed, threshold := 1 },
    { id := "getting_started", tier := "bronze", stat := .levels_completed, threshold := 5 },
    { id := "python_enthusiast", tier := "silver", stat := .levels_completed, threshold := 10 },
    { id := "code_warrior", tier := "gold", stat := .levels_completed, threshold := 25 },
    { id := "python_master", tier := "platinum", stat := .levels_completed, threshold := 50 },
    { id := "perfectionist", tier := "silver", stat := .perfect_scores, threshold := 1 },
    { id := "streak_master", tier := "gold", stat := .learning_streak, threshold := 7 },
    { id := "speed_demon", tier := "silver", stat := .fast_completion, threshold := 1 },
    { id := "dedicated_learner", tier := "gold", stat := .total_time_hours, threshold := 10 },
    { id := "challenge_conqueror", tier := "platinum", stat := .challenge_levels_completed, threshold := 4 },
    { id := "night_owl", tier := "bronze", stat := .night_completions, threshold := 5 },
    { id := "early_bird", tier := "bronze", stat := .early_completions, threshold := 5 } ]

/-- The numeric value of a named statistic in a snapshot. -/
def stat_value (stats : AchStats) : StatName → ℚ
  | .levels_completed => stats.levels_completed
  | .perfect_scores => stats.perfect_scores
  | .learning_streak => stats.learning_streak
  | .total_time_hours => stats.total_time_hours
  | .fast_completion => stats.fast_completion
  | .challenge_levels_completed => stats.challenge_levels_completed
  | .night_completions => stats.night_completions
  | .early_completions => stats.early_completions

/-- Models _check_achievement_condition. The source substitutes each stat
name by its value in the condition string, in dict insertion order, and
evaluates the result; levels_completed is replaced before
challenge_levels_completed and is a substring of it, so that condition
string becomes an undefined name, eval raises, and the bare except returns
False: the challenge_conqueror condition never holds. All other conditions
evaluate to the plain threshold comparison. -/
def check_achievement_condition (achievement : AchievementDef) (stats : AchStats) :
    Bool :=
  if achievement.stat = .challenge_levels_completed then false
  else decide (stat_value stats achievement.stat ≥ (achievement.threshold : ℚ))

/-- Coin reward of a tier in reward_calculations, bronze being the default
for an unknown tier. -/
def reward_coins (tier : String) : Nat :=
  if tier = "bronze" then 50
  else if tier = "silver" then 100
  else if tier = "gold" then 200
  else if tier = "platinum" then 500
  else 50

/-- XP reward of a tier in reward_calculations, bronze being the default. -/
def reward_xp (tier : String) : Nat :=
  if tier = "bronze" then 25
  else if tier = "silver" then 50
  else if tier = "gold" then 100
  else if tier = "platinum" then 250
  else 25

/-- Models _create_earned_achievement (timestamp and display fields are not
modelled; the rewards field of the record repeats reward_calculations). -/
def create_earned_achievement (achievement : AchievementDef) : EarnedAchievement :=
  { id := achievement.id, tier := achievement.tier }

/-- Models check_new_achievements: definitions whose id is not among the
current achievement ids and whose condition holds on the snapshot. -/
def check_new_achievements (player : Player) : List EarnedAchievement :=
  let current_ids := player.achievements.map (fun a => a.id)
  let stats := calculate_player_stats player
  (achievement_definitions.filter
      (fun a => !(decide (a.id ∈ current_ids)) && check_achievement_condition a stats)).map
    create_earned_achievement

/-- The totals returned by award_achievements. -/
structure AwardResult where
  achievements_added : Nat
  reward_coins_total : Nat
  reward_xp_total : Nat
deriving Repr, DecidableEq

/-- Models award_achievements: an empty list is a no-op; otherwise every
earned record is appended to player.achievements and the tier rewards are
summed and credited to the coin and XP totals. -/
def award_achievements (player : Player) (new_achievements : List EarnedAchievement) :
    Player × AwardResult :=
  if new_achievements.isEmpty then
    (player, { achievements_added := 0, reward_coins_total := 0, reward_xp_total := 0 })
  else
    let coins := (new_achievements.map (fun a => reward_coins a.tier)).sum
    let xp := (new_achievements.map (fun a => reward_xp a.tier)).sum
    ({ player with
        achievements := player.achievements ++ new_achievements,
        total_coins := player.total_coins + coins,
        total_xp := player.total_xp + xp },
     { achievements_added := new_achievements.length,
       reward_coins_total := coins, reward_xp_total := xp })

/-- A shop reward: id and cost (name, description, type and icon are
presentation only). -/
structure ShopReward where
  id : String
  cost : Nat
deriving Repr, DecidableEq

/-- The catalog of get_available_rewards in achievements.py. -/
def shop_rewards : List ShopReward :=
  [ { id := "hint_pack", cost := 100 },
    { id := "time_bonus", cost := 150 },
    { id := "skip_level", cost := 300 },
    { id := "double_points", cost := 200 },
    { id := "theme_dark", cost := 250 } ]

/-- Outcome of purchase_reward in achievements.py: success carries
remaining_coins; the two failure messages are Reward-not-found and
Insufficient-coins. There is no already-owned check in this engine. -/
inductive PurchaseOutcome
  | success (remaining_coins : Nat)
  | rewardNotFound
  | insufficientCoins
deriving Repr, DecidableEq

/-- Models purchase_reward in achievements.py: find the reward, fail when it
is absent or unaffordable (the available flag it checks first is exactly the
same coin comparison), otherwise deduct the cost, append the purchase and
report the remaining coins. -/
def purchase_reward (player : Player) (reward_id : String) :
    PurchaseOutcome × Player :=
  match shop_rewards.find? (fun r => r.id == reward_id) with
  | none => (.rewardNotFound, player)
  | some reward =>
    if player.total_coins < reward.cost then (.insufficientCoins, player)
    else
      let updated :=
        { player with
            total_coins := player.total_coins - reward.cost,
            purchased_rewards := player.purchased_rewards ++ [reward_id] }
      (.success updated.total_coins, updated)

/-- The fields of the legacy Player (player.py) read by the legacy purchase
path in game_logic.py. -/
structure LegacyPlayer where
  coins : Nat
  purchased_rewards : List String
deriving Repr, DecidableEq

/-- The catalog of GameLogic._load_rewards in game_logic.py. -/
def legacy_rewards : List ShopReward :=
  [ { id := "theme_dark", cost := 100 },
    { id := "theme_colorful", cost := 150 },
    { id := "xp_boost", cost := 200 },
    { id := "hint_pack", cost := 75 },
    { id := "skip_level", cost := 300 },
    { id := "certificate", cost := 500 },
    { id := "badge_bronze", cost := 250 },
    { id := "badge_silver", cost := 400 },
    { id := "badge_gold", cost := 600 },
    { id := "avatar_ninja", cost := 300 } ]

/-- Outcome of GameLogic.purchase_reward in game_logic.py: the three failure
messages are Reward-not-found, Already-purchased and Not-enough-coins; the
success dict carries no remaining-coins field. -/
inductive LegacyPurchaseOutcome
  | success
  | rewardNotFound
  | alreadyPurchased
  | notEnoughCoins
deriving Repr, DecidableEq

/-- Models GameLogic.purchase_reward in game_logic.py: find the reward, then
reject when already purchased or unaffordable, otherwise deduct the cost and
append the reward id. -/
def legacy_purchase_reward (player : LegacyPlayer) (reward_id : String) :
    LegacyPurchaseOutcome × LegacyPlayer :=
  match legacy_rewards.find? (fun r => r.id == reward_id) with
  | none => (.rewardNotFound, player)
  | some reward =>
    if reward_id ∈ player.purchased_rewards then (.alreadyPurchased, player)
    else if player.coins < reward.cost then (.notEnoughCoins, player)
    else (.success,
      { coins := player.coins - reward.cost,
        purchased_rewards := player.purchased_rewards ++ [reward_id] })

/-- A freshly created player: the defaults of the PlayerState constructor. -/
def freshPlayer : Player :=
  { completed_levels := [], performance_history := [], level_stars := [],
    level_attempts := [], total_xp := 0, total_coins := 0, learning_streak := 0,
    total_time_spent := 0, achievements := [], purchased_rewards := [] }

/-- A player who already has max_retries recorded attempts on level 2. -/
def cappedPlayer : Player :=
  { freshPlayer with completed_levels := [1], level_attempts := [(2, 3)] }

/-- The graded result of a perfect submission to level 1 by a fresh player. -/
def c4Result : SubmissionResult :=
  { passed := true, score_percentage := 100, correct_answers := 1,
    total_questions := 1,
    progression := some
      { level_completed := 1, stars_earned := 3, next_level_id := some 2,
        next_level_unlocked := true, rewards_coins := 20, rewards_xp := 50 },
    retry_available := true }

/-- The player state after that perfect submission to level 1. -/
def c4Player : Player :=
  { freshPlayer with
      completed_levels := [1],
      performance_history :=
        [{ level_id := 1, score_percentage := 100, passed := true,
           attempt_number := 1, completion_time := none, level_type := none,
           timestamp_hour := none }],
      level_stars := [(1, 3)],
      level_attempts := [(1, 1)] }

/-- A one-record history: level 2 passed with score 90. -/
def ninetyHistory : List PerfRecord :=
  [{ level_id := 2, score_percentage := 90, passed := true, attempt_number := 1,
     completion_time := none, level_type := none, timestamp_hour := none }]

/-- A level shaped like level 5 but with an empty prerequisite list, for the
sequential-fallback branch of the availability rule. -/
def noPrereqLevel : Level := { create_level 5 with prerequisites := [] }

/-- A player qualifying for the first-steps and streak-master achievements. -/
def achieverPlayer : Player :=
  { freshPlayer with completed_levels := [1], learning_streak := 7 }

/-- A player who owns hint_pack and has exactly its cost in coins. -/
def ownedPlayer : Player :=
  { freshPlayer with total_coins := 100, purchased_rewards := ["hint_pack"] }

/-- A legacy player who already owns theme_dark. -/
def lwOwned : LegacyPlayer := { coins := 100, purchased_rewards := ["theme_dark"] }

/-- A legacy player with coins and no purchases. -/
def lwFresh : LegacyPlayer := { coins := 100, purchased_rewards := [] }

/-- Lookup of a key just written returns the written value. -/
theorem dictGet_dictSet (d : List (Nat × Nat)) (k v dflt : Nat) :
    dictGet (dictSet d k v) k dflt = v := by
  induction d with
  | nil => simp [dictGet, dictSet]
  | cons p rest ih =>
    by_cases h : p.1 = k <;> simp [dictGet, dictSet, h, ih]

/-- The completion handler does not touch the attempt counters. -/
theorem hlc_level_attempts (player : Player) (level_id : Nat) (vr : ScoreResult) :
    ((handle_level_completion player level_id vr).2).level_attempts =
      player.level_attempts := by
  simp only [handle_level_completion]
  split_ifs <;> rfl

/-- The completion handler does not touch the performance history. -/
theorem hlc_history (player : Player) (level_id : Nat) (vr : ScoreResult) :
    ((handle_level_completion player level_id vr).2).performance_history =
      player.performance_history := by
  simp only [handle_level_completion]
  split_ifs <;> rfl

/-- The completion handler does not touch the coin total. -/
theorem hlc_coins (player : Player) (level_id : Nat) (vr : ScoreResult) :
    ((handle_level_completion player level_id vr).2).total_coins =
      player.total_coins := by
  simp only [handle_level_completion]
  split_ifs <;> rfl

/-- The completion handler does not touch the XP total. -/
theorem hlc_xp (player : Player) (level_id : Nat) (vr : ScoreResult) :
    ((handle_level_completion player level_id vr).2).total_xp = player.total_xp := by
  simp only [handle_level_completion]
  split_ifs <;> rfl

/-- Effect of the completion handler on completed_levels: the id is appended
exactly when it was absent. -/
theorem hlc_completed (player : Player) (level_id : Nat) (vr : ScoreResult) :
    ((handle_level_completion player level_id vr).2).completed_levels =
      (if level_id ∈ player.completed_levels then player.completed_levels
       else player.completed_levels ++ [level_id]) := by
  simp only [handle_level_completion]
  split_ifs <;> rfl

/-- Effect of the completion handler on level_stars: the entry is raised to
the earned stars exactly when they exceed the stored value. -/
theorem hlc_stars (player : Player) (level_id : Nat) (vr : ScoreResult) :
    ((handle_level_completion player level_id vr).2).level_stars =
      (let p1 :=
        if level_id ∈ player.completed_levels then player
        else { player with completed_levels := player.completed_levels ++ [level_id] }
       let stars := calculate_stars_earned vr.score_percentage
       if stars > dictGet p1.level_stars level_id 0 then
         dictSet p1.level_stars level_id stars
       else p1.level_stars) := by
  simp only [handle_level_completion]
  split_ifs <;> rfl

/-- Shape of the graded path when the score reaches the passing threshold. -/
theorem graded_submission_of_passed (level : Level) (level_id : Nat)
    (player : Player) (answers : List Nat)
    (h : (calculate_score_and_feedback level.questions answers).score_percentage ≥
      ((level.passing_score.getD minimum_score : Nat) : ℚ)) :
    graded_submission level level_id player answers =
      (let vr := calculate_score_and_feedback level.questions answers
       let p1 := record_level_attempt player level_id vr.score_percentage true
       let hp := handle_level_completion p1 level_id vr
       (.graded { passed := true, score_percentage := vr.score_percentage,
                  correct_answers := vr.correct_count,
                  total_questions := vr.total_questions,
                  progression := some hp.1,
                  retry_available := can_retry_level hp.2 level_id }, hp.2)) := by
  simp [graded_submission, decide_eq_true h]

/-- Shape of the graded path when the score misses the passing threshold. -/
theorem graded_submission_of_failed (level : Level) (level_id : Nat)
    (player : Player) (answers : List Nat)
    (h : ¬((calculate_score_and_feedback level.questions answers).score_percentage ≥
      ((level.passing_score.getD minimum_score : Nat) : ℚ))) :
    graded_submission level level_id player answers =
      (let vr := calculate_score_and_feedback level.questions answers
       let p1 := record_level_attempt player level_id vr.score_percentage false
       (.graded { passed := false, score_percentage := vr.score_percentage,
                  correct_answers := vr.correct_count,
                  total_questions := vr.total_questions,
                  progression := none,
                  retry_available := can_retry_level p1 level_id }, p1)) := by
  simp [graded_submission, decide_eq_false h]

/-- A found level with questions of matching count reaches the graded path. -/
theorem validate_eq_graded (level_id : Nat) (player : Player) (answers : List Nat)
    (level : Level)
    (hfind : get_level_data level_id = some level)
    (hq : level.questions.isEmpty = false)
    (hlen : answers.length = level.questions.length) :
    validate_answer_submission level_id player answers =
      graded_submission level level_id player answers := by
  simp [validate_answer_submission, hfind, hq, hlen]

/-- The level_stars entry written by the completion handler is the maximum
of the stored entry and the earned stars. -/
theorem hlc_stars_get (player : Player) (level_id : Nat) (vr : ScoreResult) :
    dictGet ((handle_level_completion player level_id vr).2).level_stars level_id 0 =
      max (dictGet player.level_stars level_id 0)
        (calculate_stars_earned vr.score_percentage) := by
  unfold handle_level_completion
  dsimp only
  split_ifs with h1 h2 h3
  · rw [dictGet_dictSet]
    exact (Nat.max_eq_right (Nat.le_of_lt h2)).symm
  · exact (Nat.max_eq_left (Nat.not_lt.mp h2)).symm
  · rw [dictGet_dictSet]
    exact (Nat.max_eq_right (Nat.le_of_lt h3)).symm
  · exact (Nat.max_eq_left (Nat.not_lt.mp h3)).symm

/-- Attempt counter after recording an attempt and handling completion. -/
theorem hlc_rla_attempts_get (player : Player) (level_id : Nat) (s : ℚ) (b : Bool)
    (vr : ScoreResult) :
    dictGet ((handle_level_completion (record_level_attempt player level_id s b)
        level_id vr).2).level_attempts level_id 0 =
      dictGet player.level_attempts level_id 0 + 1 := by
  rw [hlc_level_attempts]
  simp [record_level_attempt, dictGet_dictSet]

/-- Completed levels after recording an attempt and handling completion. -/
theorem hlc_rla_completed (player : Player) (level_id : Nat) (s : ℚ) (b : Bool)
    (vr : ScoreResult) :
    ((handle_level_completion (record_level_attempt player level_id s b)
        level_id vr).2).completed_levels =
      (if level_id ∈ player.completed_levels then player.completed_levels
       else player.completed_levels ++ [level_id]) := by
  rw [hlc_completed]
  rfl

/-- Stored stars after recording an attempt and handling completion. -/
theorem hlc_rla_stars_get (player : Player) (level_id : Nat) (s : ℚ) (b : Bool)
    (vr : ScoreResult) :
    dictGet ((handle_level_completion (record_level_attempt player level_id s b)
        level_id vr).2).level_stars level_id 0 =
      max (dictGet player.level_stars level_id 0)
        (calculate_stars_earned vr.score_percentage) := by
  rw [hlc_stars_get]
  rfl

/-- Awarding achievements does not change the statistics snapshot. -/
theorem award_preserves_stats (player : Player) (new : List EarnedAchievement) :
    calculate_player_stats ((award_achievements player new).1) =
      calculate_player_stats player := by
  unfold award_achievements
  split_ifs <;> rfl

/-- Awarding appends exactly the new achievements to the stored list. -/
theorem award_achievements_list (player : Player) (new : List EarnedAchievement) :
    ((award_achievements player new).1).achievements =
      player.achievements ++ new := by
  unfold award_achievements
  split_ifs with h
  · simp [List.isEmpty_iff.mp h]
  · rfl

/-- Claim C1, counterexample: catalog Level 10 is a test with passing_score
80 but its generated question list has length 1, not 5, so the claimed
five-answer submission is rejected as an answer-count mismatch instead of
being scored. -/
theorem C1_level10_questions_counterexample :
    ((get_level_data 10).map fun l => l.questions.length) = some 1 ∧
    ((get_level_data 10).map fun l => l.questions.length) ≠ some 5 ∧
    ((get_level_data 10).map fun l => l.passing_score) = some (some test_minimum_score) ∧
    validate_answer_submission 10 freshPlayer [0, 0, 0, 1, 1] =
      (.rejected .answerCountMismatch, freshPlayer) := by
  decide

/-- Claim C1, amended: a graded submission is passed exactly when its
score_percentage is at least the level passing_score, which defaults to 70
and is 80 exactly for the test levels of the catalog; a failed submission
credits no coins or XP and each submission adds one recorded attempt.
Catalog Level 10 has a single generated question, so the five-question
scenario only arises for a five-question question set, where three correct
answers yield score 60, below the test threshold 80. -/
theorem C1_passing_rule_amended :
    (∀ level_id level player answers,
      get_level_data level_id = some level →
      level.questions.isEmpty = false →
      answers.length = level.questions.length →
      ∃ res pOut,
        validate_answer_submission level_id player answers = (.graded res, pOut) ∧
        (res.passed = true ↔ res.score_percentage ≥
          ((level.passing_score.getD minimum_score : Nat) : ℚ)) ∧
        (res.passed = false → res.progression = none ∧
          pOut.total_coins = player.total_coins ∧ pOut.total_xp = player.total_xp ∧
          pOut.completed_levels = player.completed_levels ∧
          pOut.level_stars = player.level_stars) ∧
        dictGet pOut.level_attempts level_id 0 =
          dictGet player.level_attempts level_id 0 + 1 ∧
        pOut.performance_history.length = player.performance_history.length + 1) ∧
    (∀ l ∈ levels,
      l.passing_score = if l.type = .test then some test_minimum_score else none) ∧
    ((calculate_score_and_feedback (List.replicate 5 { correct := 1 })
        [1, 1, 1, 0, 0]).score_percentage = 60 ∧
      ¬((60 : ℚ) ≥ ((test_minimum_score : Nat) : ℚ))) := by
  refine ⟨?_, by decide, by decide⟩
  intro level_id level player answers hfind hq hlen
  rw [validate_eq_graded level_id player answers level hfind hq hlen]
  by_cases hscore : (calculate_score_and_feedback level.questions answers).score_percentage ≥
      ((level.passing_score.getD minimum_score : Nat) : ℚ)
  · rw [graded_submission_of_passed level level_id player answers hscore]
    refine ⟨_, _, rfl, by simpa using hscore, by simp, ?_, ?_⟩
    · rw [hlc_level_attempts]
      simp [record_level_attempt, dictGet_dictSet]
    · rw [hlc_history]
      simp [record_level_attempt]
  · rw [graded_submission_of_failed level level_id player answers hscore]
    refine ⟨_, _, rfl, by simpa using hscore, fun _ => ⟨rfl, rfl, rfl, rfl, rfl⟩, ?_, ?_⟩
    · simp [record_level_attempt, dictGet_dictSet]
    · simp [record_level_attempt]

/-- Claim C1, witness: the amended passing rule evaluated on catalog Level
10 with its one-question list and a wrong answer. -/
theorem C1_passing_rule_witness :
    get_level_data 10 = some (create_level 10) ∧
    (create_level 10).questions.isEmpty = false ∧
    [0].length = (create_level 10).questions.length ∧
    (∃ res pOut,
      validate_answer_submission 10 freshPlayer [0] = (.graded res, pOut) ∧
      (res.passed = true ↔ res.score_percentage ≥
        (((create_level 10).passing_score.getD minimum_score : Nat) : ℚ)) ∧
      (res.passed = false → res.progression = none ∧
        pOut.total_coins = freshPlayer.total_coins ∧
        pOut.total_xp = freshPlayer.total_xp ∧
        pOut.completed_levels = freshPlayer.completed_levels ∧
        pOut.level_stars = freshPlayer.level_stars) ∧
      dictGet pOut.level_attempts 10 0 = dictGet freshPlayer.level_attempts 10 0 + 1 ∧
      pOut.performance_history.length = freshPlayer.performance_history.length + 1) :=
  ⟨by decide, by decide, by decide,
    C1_passing_rule_amended.1 10 (create_level 10) freshPlayer [0]
      (by decide) (by decide) (by decide)⟩

/-- Claim C2, counterexample: a player with max_retries recorded attempts on
level 2 submits again; the submission is accepted and scored, the attempt
counter rises to 4 and a record is appended to performance_history, instead
of the claimed RetryLimitExceeded rejection. -/
theorem C2_retry_cap_counterexample :
    dictGet cappedPlayer.level_attempts 2 0 = max_retries ∧
    (validate_answer_submission 2 cappedPlayer [0]).1 =
      .graded { passed := false, score_percentage := 0, correct_answers := 0,
                total_questions := 1, progression := none, retry_available := false } ∧
    ((validate_answer_submission 2 cappedPlayer [0]).2).performance_history.length =
      cappedPlayer.performance_history.length + 1 ∧
    dictGet ((validate_answer_submission 2 cappedPlayer [0]).2).level_attempts 2 0 = 4 := by
  decide

/-- Claim C2, amended: once the recorded attempt count for a level has
reached max_retries, a further submission is still accepted, scored and
appended to performance_history with the counter incremented; the exhausted
limit is only reported through retry_available = false in the response;
no RetryLimitExceeded rejection exists in the engine. -/
theorem C2_retry_reporting_amended :
    ∀ level_id level player answers,
      get_level_data level_id = some level →
      level.questions.isEmpty = false →
      answers.length = level.questions.length →
      max_retries ≤ dictGet player.level_attempts level_id 0 →
      ∃ res pOut,
        validate_answer_submission level_id player answers = (.graded res, pOut) ∧
        dictGet pOut.level_attempts level_id 0 =
          dictGet player.level_attempts level_id 0 + 1 ∧
        pOut.performance_history.length = player.performance_history.length + 1 ∧
        res.retry_available = false := by
  intro level_id level player answers hfind hq hlen hcap
  rw [validate_eq_graded level_id player answers level hfind hq hlen]
  by_cases hscore : (calculate_score_and_feedback level.questions answers).score_percentage ≥
      ((level.passing_score.getD minimum_score : Nat) : ℚ)
  · rw [graded_submission_of_passed level level_id player answers hscore]
    refine ⟨_, _, rfl, ?_, ?_, ?_⟩
    · rw [hlc_level_attempts]
      simp [record_level_attempt, dictGet_dictSet]
    · rw [hlc_history]
      simp [record_level_attempt]
    · show can_retry_level _ level_id = false
      unfold can_retry_level
      rw [hlc_level_attempts]
      have : dictGet (record_level_attempt player level_id
          (calculate_score_and_feedback level.questions answers).score_percentage
          true).level_attempts level_id 0 =
          dictGet player.level_attempts level_id 0 + 1 := by
        simp [record_level_attempt, dictGet_dictSet]
      rw [this]
      have hnot : ¬(dictGet player.level_attempts level_id 0 + 1 < max_retries) := by
        unfold max_retries at hcap ⊢
        omega
      simp [hnot]
  · rw [graded_submission_of_failed level level_id player answers hscore]
    refine ⟨_, _, rfl, ?_, ?_, ?_⟩
    · simp [record_level_attempt, dictGet_dictSet]
    · simp [record_level_attempt]
    · show can_retry_level _ level_id = false
      unfold can_retry_level
      have : dictGet (record_level_attempt player level_id
          (calculate_score_and_feedback level.questions answers).score_percentage
          false).level_attempts level_id 0 =
          dictGet player.level_attempts level_id 0 + 1 := by
        simp [record_level_attempt, dictGet_dictSet]
      rw [this]
      have hnot : ¬(dictGet player.level_attempts level_id 0 + 1 < max_retries) := by
        unfold max_retries at hcap ⊢
        omega
      simp [hnot]

/-- Claim C2, witness: the amended retry behavior evaluated on a player
whose attempt counter for level 2 already equals max_retries. -/
theorem C2_retry_reporting_witness :
    get_level_data 2 = some (create_level 2) ∧
    (create_level 2).questions.isEmpty = false ∧
    [0].length = (create_level 2).questions.length ∧
    max_retries ≤ dictGet cappedPlayer.level_attempts 2 0 ∧
    (∃ res pOut,
      validate_answer_submission 2 cappedPlayer [0] = (.graded res, pOut) ∧
      dictGet pOut.level_attempts 2 0 = dictGet cappedPlayer.level_attempts 2 0 + 1 ∧
      pOut.performance_history.length = cappedPlayer.performance_history.length + 1 ∧
      res.retry_available = false) :=
  ⟨by decide, by decide, by decide, by decide,
    C2_retry_reporting_amended 2 (create_level 2) cappedPlayer [0]
      (by decide) (by decide) (by decide) (by decide)⟩

/-- Claim C3, counterexample: challenge level 25 carries no question list,
so a submission whose length differs from its question count (zero) is
rejected with the no-questions content failure, not with the claimed
answer-count mismatch; the player is untouched either way. -/
theorem C3_no_questions_counterexample :
    ((get_level_data 25).map fun l => l.questions.length) = some 0 ∧
    List.length [0] ≠ 0 ∧
    validate_answer_submission 25 freshPlayer [0] =
      (.rejected .noQuestions, freshPlayer) ∧
    SubmissionError.noQuestions ≠ SubmissionError.answerCountMismatch := by
  decide

/-- Claim C3, amended: for a level with a nonempty question list, any
submission whose answer count differs is rejected as an answer-count
mismatch with the player returned untouched; for a level with no questions
(the challenge levels) the rejection is the no-questions content failure,
again with the player untouched. -/
theorem C3_input_rejection_amended :
    (∀ level_id level player answers,
      get_level_data level_id = some level →
      level.questions.isEmpty = false →
      answers.length ≠ level.questions.length →
      validate_answer_submission level_id player answers =
        (.rejected .answerCountMismatch, player)) ∧
    (∀ level_id level player answers,
      get_level_data level_id = some level →
      level.questions.isEmpty = true →
      validate_answer_submission level_id player answers =
        (.rejected .noQuestions, player)) := by
  constructor
  · intro level_id level player answers hfind hq hlen
    simp [validate_answer_submission, hfind, hq, hlen]
  · intro level_id level player answers hfind hq
    simp [validate_answer_submission, hfind, hq]

/-- Claim C3, witness: the amended mismatch rejection evaluated on level 1
with two answers against its single question. -/
theorem C3_input_rejection_witness :
    get_level_data 1 = some (create_level 1) ∧
    (create_level 1).questions.isEmpty = false ∧
    [0, 0].length ≠ (create_level 1).questions.length ∧
    validate_answer_submission 1 freshPlayer [0, 0] =
      (.rejected .answerCountMismatch, freshPlayer) :=
  ⟨by decide, by decide, by decide,
    C3_input_rejection_amended.1 1 (create_level 1) freshPlayer [0, 0]
      (by decide) (by decide) (by decide)⟩

/-- Claim C4: on every passing graded submission, the stars reported in the
progression data are determined by score_percentage alone through the tiers
95, 85 and 70. -/
theorem C4_star_tiers :
    ∀ level_id player answers res pOut,
      validate_answer_submission level_id player answers = (.graded res, pOut) →
      res.passed = true →
      ∃ pd, res.progression = some pd ∧
        pd.stars_earned =
          (if res.score_percentage ≥ 95 then 3
           else if res.score_percentage ≥ 85 then 2
           else if res.score_percentage ≥ 70 then 1
           else 0) := by
  intro level_id player answers res pOut hval hpass
  rcases hfind : get_level_data level_id with _ | level
  · simp [validate_answer_submission, hfind] at hval
  · by_cases hq : level.questions.isEmpty = false
    · by_cases hlen : answers.length = level.questions.length
      · rw [validate_eq_graded level_id player answers level hfind hq hlen] at hval
        by_cases hscore :
            (calculate_score_and_feedback level.questions answers).score_percentage ≥
              ((level.passing_score.getD minimum_score : Nat) : ℚ)
        · rw [graded_submission_of_passed level level_id player answers hscore] at hval
          injection hval with h1 h2
          injection h1 with h1
          subst h1
          exact ⟨_, rfl, rfl⟩
        · rw [graded_submission_of_failed level level_id player answers hscore] at hval
          injection hval with h1 h2
          injection h1 with h1
          subst h1
          simp at hpass
      · simp [validate_answer_submission, hfind, hq, hlen] at hval
    · have hq' : level.questions.isEmpty = true := by
        revert hq
        cases level.questions.isEmpty <;> simp
      simp [validate_answer_submission, hfind, hq'] at hval

/-- Claim C4, witness: the star tiers evaluated on a perfect submission to
level 1, which earns three stars. -/
theorem C4_star_tiers_witness :
    validate_answer_submission 1 freshPlayer [1] = (.graded c4Result, c4Player) ∧
    c4Result.passed = true ∧
    (∃ pd, c4Result.progression = some pd ∧
      pd.stars_earned =
        (if c4Result.score_percentage ≥ 95 then 3
         else if c4Result.score_percentage ≥ 85 then 2
         else if c4Result.score_percentage ≥ 70 then 1
         else 0)) :=
  ⟨by decide, by decide,
    C4_star_tiers 1 freshPlayer [1] c4Result c4Player (by decide) (by decide)⟩

/-- Claim C7: in the 100-level catalog, prerequisites always reference
strictly smaller ids, level 1 has none, lessons require exactly the
preceding id, and tests and challenges require a contiguous window of ids
ending at their own id minus one. -/
theorem C7_catalog_prerequisites :
    ∀ l ∈ levels,
      (∀ x ∈ l.prerequisites, x < l.id) ∧
      (l.id = 1 → l.prerequisites = []) ∧
      (l.type = .lesson → 1 < l.id → l.prerequisites = [l.id - 1]) ∧
      ((l.type = .test ∨ l.type = .challenge) →
        l.prerequisites ≠ [] ∧
        l.prerequisites =
          List.range' (l.id - l.prerequisites.length) l.prerequisites.length ∧
        l.prerequisites.getLast? = some (l.id - 1)) := by
  decide

/-- Claim C7, witness: the catalog invariants evaluated on lesson level 2
and test level 10. -/
theorem C7_catalog_prerequisites_witness :
    (create_level 2).prerequisites = [2 - 1] ∧
    (create_level 10).prerequisites.getLast? = some (10 - 1) :=
  ⟨(C7_catalog_prerequisites (create_level 2) (by decide)).2.2.1 (by decide) (by decide),
   ((C7_catalog_prerequisites (create_level 10) (by decide)).2.2.2
      (Or.inl (by decide))).2.2⟩

/-- Claim C10, counterexample: at score 90, completion stores 2 stars while
the statistics recalculation derives 3, so recomputing from the same
history changes the stored level_stars mapping. -/
theorem C10_star_tier_counterexample :
    calculate_stars_earned 90 = 2 ∧
    recalc_star_tier 90 = 3 ∧
    ((handle_level_completion freshPlayer 2
        { correct_count := 9, total_questions := 10,
          score_percentage := 90 }).2).level_stars = [(2, 2)] ∧
    recalc_level_stars ninetyHistory = [(2, 3)] := by
  decide

/-- Claim C10, amended: the star tier used by the recalculation equals the
tier awarded at completion except on the score bands 80 to below 85 and 90
to below 95, where the recalculation awards exactly one star more; the
recalculated tier is therefore never smaller. -/
theorem C10_star_tier_amended :
    ∀ s : ℚ,
      recalc_star_tier s =
        calculate_stars_earned s +
          (if (80 ≤ s ∧ s < 85) ∨ (90 ≤ s ∧ s < 95) then 1 else 0) ∧
      calculate_stars_earned s ≤ recalc_star_tier s := by
  intro s
  rcases le_or_lt 95 s with h1 | h1
  · have e1 : recalc_star_tier s = 3 := by
      unfold recalc_star_tier
      rw [if_pos (show s ≥ 90 by linarith)]
    have e2 : calculate_stars_earned s = 3 := by
      unfold calculate_stars_earned
      rw [if_pos (show s ≥ 95 from h1)]
    have e3 : ¬((80 ≤ s ∧ s < 85) ∨ (90 ≤ s ∧ s < 95)) := by
      rintro (⟨h, hb⟩ | ⟨h, hb⟩) <;> linarith
    exact ⟨by rw [e1, e2, if_neg e3], by rw [e1, e2]⟩
  rcases le_or_lt 90 s with h2 | h2
  · have e1 : recalc_star_tier s = 3 := by
      unfold recalc_star_tier
      rw [if_pos (show s ≥ 90 from h2)]
    have e2 : calculate_stars_earned s = 2 := by
      unfold calculate_stars_earned
      rw [if_neg (show ¬(s ≥ 95) by linarith), if_pos (show s ≥ 85 by linarith)]
    have e3 : (80 ≤ s ∧ s < 85) ∨ (90 ≤ s ∧ s < 95) := Or.inr ⟨h2, h1⟩
    exact ⟨by rw [e1, e2, if_pos e3], by rw [e1, e2]; omega⟩
  rcases le_or_lt 85 s with h3 | h3
  · have e1 : recalc_star_tier s = 2 := by
      unfold recalc_star_tier
      rw [if_neg (show ¬(s ≥ 90) by linarith), if_pos (show s ≥ 80 by linarith)]
    have e2 : calculate_stars_earned s = 2 := by
      unfold calculate_stars_earned
      rw [if_neg (show ¬(s ≥ 95) by linarith), if_pos (show s ≥ 85 from h3)]
    have e3 : ¬((80 ≤ s ∧ s < 85) ∨ (90 ≤ s ∧ s < 95)) := by
      rintro (⟨h, hb⟩ | ⟨h, hb⟩) <;> linarith
    exact ⟨by rw [e1, e2, if_neg e3], by rw [e1, e2]⟩
  rcases le_or_lt 80 s with h4 | h4
  · have e1 : recalc_star_tier s = 2 := by
      unfold recalc_star_tier
      rw [if_neg (show ¬(s ≥ 90) by linarith), if_pos (show s ≥ 80 from h4)]
    have e2 : calculate_stars_earned s = 1 := by
      unfold calculate_stars_earned
      rw [if_neg (show ¬(s ≥ 95) by linarith), if_neg (show ¬(s ≥ 85) by linarith),
        if_pos (show s ≥ 70 by linarith)]
    have e3 : (80 ≤ s ∧ s < 85) ∨ (90 ≤ s ∧ s < 95) := Or.inl ⟨h4, h3⟩
    exact ⟨by rw [e1, e2, if_pos e3], by rw [e1, e2]; omega⟩
  rcases le_or_lt 70 s with h5 | h5
  · have e1 : recalc_star_tier s = 1 := by
      unfold recalc_star_tier
      rw [if_neg (show ¬(s ≥ 90) by linarith), if_neg (show ¬(s ≥ 80) by linarith),
        if_pos (show s ≥ 70 from h5)]
    have e2 : calculate_stars_earned s = 1 := by
      unfold calculate_stars_earned
      rw [if_neg (show ¬(s ≥ 95) by linarith), if_neg (show ¬(s ≥ 85) by linarith),
        if_pos (show s ≥ 70 from h5)]
    have e3 : ¬((80 ≤ s ∧ s < 85) ∨ (90 ≤ s ∧ s < 95)) := by
      rintro (⟨h, hb⟩ | ⟨h, hb⟩) <;> linarith
    exact ⟨by rw [e1, e2, if_neg e3], by rw [e1, e2]⟩
  · have e1 : recalc_star_tier s = 0 := by
      unfold recalc_star_tier
      rw [if_neg (show ¬(s ≥ 90) by linarith), if_neg (show ¬(s ≥ 80) by linarith),
        if_neg (show ¬(s ≥ 70) by linarith)]
    have e2 : calculate_stars_earned s = 0 := by
      unfold calculate_stars_earned
      rw [if_neg (show ¬(s ≥ 95) by linarith), if_neg (show ¬(s ≥ 85) by linarith),
        if_neg (show ¬(s ≥ 70) by linarith)]
    have e3 : ¬((80 ≤ s ∧ s < 85) ∨ (90 ≤ s ∧ s < 95)) := by
      rintro (⟨h, hb⟩ | ⟨h, hb⟩) <;> linarith
    exact ⟨by rw [e1, e2, if_neg e3], by rw [e1, e2]⟩

/-- Claim C10, witness: the amended tier relation evaluated at score 92,
inside the band where the recalculation awards one star more. -/
theorem C10_star_tier_amended_witness :
    recalc_star_tier 92 =
      calculate_stars_earned 92 +
        (if ((80 : ℚ) ≤ 92 ∧ (92 : ℚ) < 85) ∨ ((90 : ℚ) ≤ 92 ∧ (92 : ℚ) < 95)
         then 1 else 0) ∧
    calculate_stars_earned 92 ≤ recalc_star_tier 92 :=
  C10_star_tier_amended 92

/-- Claim C5: submitting the same passing answer set twice increments the
attempt counter each time, never duplicates the level id in
completed_levels, and never decreases the stored level_stars entry. -/
theorem C5_idempotent_completion :
    ∀ level_id level player answers,
      get_level_data level_id = some level →
      level.questions.isEmpty = false →
      answers.length = level.questions.length →
      (calculate_score_and_feedback level.questions answers).score_percentage ≥
        ((level.passing_score.getD minimum_score : Nat) : ℚ) →
      player.completed_levels.count level_id ≤ 1 →
      dictGet ((validate_answer_submission level_id player answers).2).level_attempts
          level_id 0 = dictGet player.level_attempts level_id 0 + 1 ∧
      dictGet ((validate_answer_submission level_id
            ((validate_answer_submission level_id player answers).2)
            answers).2).level_attempts level_id 0 =
        dictGet player.level_attempts level_id 0 + 2 ∧
      ((validate_answer_submission level_id
            ((validate_answer_submission level_id player answers).2)
            answers).2).completed_levels.count level_id ≤ 1 ∧
      level_id ∈
        ((validate_answer_submission level_id player answers).2).completed_levels ∧
      dictGet ((validate_answer_submission level_id player answers).2).level_stars
          level_id 0 ≤
        dictGet ((validate_answer_submission level_id
            ((validate_answer_submission level_id player answers).2)
            answers).2).level_stars level_id 0 := by
  intro level_id level player answers hfind hq hlen hscore hcount
  have hp1 : (validate_answer_submission level_id player answers).2 =
      (handle_level_completion (record_level_attempt player level_id
        (calculate_score_and_feedback level.questions answers).score_percentage true)
        level_id (calculate_score_and_feedback level.questions answers)).2 := by
    rw [validate_eq_graded level_id player answers level hfind hq hlen,
      graded_submission_of_passed level level_id player answers hscore]
  have hp2 : (validate_answer_submission level_id
        ((validate_answer_submission level_id player answers).2) answers).2 =
      (handle_level_completion (record_level_attempt
        ((validate_answer_submission level_id player answers).2) level_id
        (calculate_score_and_feedback level.questions answers).score_percentage true)
        level_id (calculate_score_and_feedback level.questions answers)).2 := by
    rw [validate_eq_graded level_id
        ((validate_answer_submission level_id player answers).2) answers level
        hfind hq hlen,
      graded_submission_of_passed level level_id
        ((validate_answer_submission level_id player answers).2) answers hscore]
  have hatt1 : dictGet ((validate_answer_submission level_id player
      answers).2).level_attempts level_id 0 =
      dictGet player.level_attempts level_id 0 + 1 := by
    rw [hp1, hlc_rla_attempts_get]
  have hmem1 : level_id ∈
      ((validate_answer_submission level_id player answers).2).completed_levels := by
    rw [hp1, hlc_rla_completed]
    split_ifs with h
    · exact h
    · exact List.mem_append_right _ (List.mem_singleton.mpr rfl)
  have hcount1 : ((validate_answer_submission level_id player
      answers).2).completed_levels.count level_id ≤ 1 := by
    rw [hp1, hlc_rla_completed]
    split_ifs with h
    · exact hcount
    · rw [List.count_append, List.count_eq_zero.mpr h]
      simp
  refine ⟨hatt1, ?_, ?_, hmem1, ?_⟩
  · rw [hp2, hlc_rla_attempts_get, hatt1]
  · rw [hp2, hlc_rla_completed, if_pos hmem1]
    exact hcount1
  · rw [hp2, hlc_rla_stars_get]
    exact Nat.le_max_left _ _

/-- Claim C5, witness: the double-submission property evaluated on level 1
with the correct answer from a fresh player. -/
theorem C5_idempotent_completion_witness :
    get_level_data 1 = some (create_level 1) ∧
    (create_level 1).questions.isEmpty = false ∧
    [1].length = (create_level 1).questions.length ∧
    (calculate_score_and_feedback (create_level 1).questions [1]).score_percentage ≥
      (((create_level 1).passing_score.getD minimum_score : Nat) : ℚ) ∧
    freshPlayer.completed_levels.count 1 ≤ 1 ∧
    (dictGet ((validate_answer_submission 1 freshPlayer [1]).2).level_attempts 1 0 =
        dictGet freshPlayer.level_attempts 1 0 + 1 ∧
      dictGet ((validate_answer_submission 1
            ((validate_answer_submission 1 freshPlayer [1]).2)
            [1]).2).level_attempts 1 0 =
        dictGet freshPlayer.level_attempts 1 0 + 2 ∧
      ((validate_answer_submission 1
            ((validate_answer_submission 1 freshPlayer [1]).2)
            [1]).2).completed_levels.count 1 ≤ 1 ∧
      1 ∈ ((validate_answer_submission 1 freshPlayer [1]).2).completed_levels ∧
      dictGet ((validate_answer_submission 1 freshPlayer [1]).2).level_stars 1 0 ≤
        dictGet ((validate_answer_submission 1
            ((validate_answer_submission 1 freshPlayer [1]).2)
            [1]).2).level_stars 1 0) :=
  ⟨by decide, by decide, by decide, by decide, by decide,
    C5_idempotent_completion 1 (create_level 1) freshPlayer [1]
      (by decide) (by decide) (by decide) (by decide) (by decide)⟩

/-- Claim C6: a catalog level with id above 1 is unavailable whenever its
prerequisites are not all completed; level 1 is always available; and the
availability body of a level recording no prerequisites reduces to
membership of the preceding id in completed_levels. -/
theorem C6_prerequisite_gating :
    (∀ level_id level player,
      get_level_data level_id = some level →
      1 < level_id →
      ¬(∀ x ∈ level.prerequisites, x ∈ player.completed_levels) →
      is_level_available level_id player = false) ∧
    (∀ player, is_level_available 1 player = true) ∧
    (∀ level level_id player,
      level.prerequisites = [] →
      level_id ≠ 1 →
      level_available_with level level_id player =
        decide ((level_id - 1) ∈ player.completed_levels)) := by
  refine ⟨?_, ?_, ?_⟩
  · intro level_id level player hfind hgt hnall
    unfold is_level_available
    rw [hfind]
    show level_available_with level level_id player = false
    unfold level_available_with
    rw [if_neg (by omega : ¬level_id = 1)]
    by_cases hpre : level.prerequisites = []
    · exact absurd (by simp [hpre]) hnall
    · rw [if_pos (by simp [hpre] : (!level.prerequisites.isEmpty) = true)]
      by_contra hall
      apply hnall
      intro x hx
      have hall' : level.prerequisites.all
          (fun prereq => decide (prereq ∈ player.completed_levels)) = true := by
        revert hall
        cases level.prerequisites.all
          (fun prereq => decide (prereq ∈ player.completed_levels)) <;> simp
      simpa using List.all_eq_true.mp hall' x hx
  · intro player
    unfold is_level_available
    rw [show get_level_data 1 = some (create_level 1) from by decide]
    rfl
  · intro level level_id player hpre hne
    unfold level_available_with
    rw [if_neg hne]
    simp [hpre, sequential_unlock]

/-- Claim C6, witness: the gating rule evaluated on level 2 for a fresh
player, level 1 availability, and the sequential fallback on a level with
an emptied prerequisite list. -/
theorem C6_prerequisite_gating_witness :
    get_level_data 2 = some (create_level 2) ∧
    is_level_available 2 freshPlayer = false ∧
    is_level_available 1 freshPlayer = true ∧
    level_available_with noPrereqLevel 5 freshPlayer =
      decide ((5 - 1) ∈ freshPlayer.completed_levels) :=
  ⟨by decide,
    C6_prerequisite_gating.1 2 (create_level 2) freshPlayer (by decide) (by decide)
      (by decide),
    C6_prerequisite_gating.2.1 freshPlayer,
    C6_prerequisite_gating.2.2 noPrereqLevel 5 freshPlayer rfl (by decide)⟩

/-- Claim C8: newly earned achievements never repeat an id already present,
awarding appends exactly the earned records without removing any, and a
second evaluation after awarding returns the empty list. -/
theorem C8_achievement_idempotence :
    ∀ player,
      (∀ a ∈ check_new_achievements player,
        a.id ∉ player.achievements.map (fun e => e.id)) ∧
      ((award_achievements player (check_new_achievements player)).1).achievements =
        player.achievements ++ check_new_achievements player ∧
      check_new_achievements
        ((award_achievements player (check_new_achievements player)).1) = [] := by
  intro player
  refine ⟨?_, award_achievements_list player _, ?_⟩
  · intro a ha
    unfold check_new_achievements at ha
    simp only [List.mem_map, List.mem_filter, Bool.and_eq_true, Bool.not_eq_true',
      decide_eq_false_iff_not] at ha
    obtain ⟨b, ⟨hbmem, hbnotin, hbcond⟩, rfl⟩ := ha
    simpa using hbnotin
  · unfold check_new_achievements
    simp only [award_preserves_stats, award_achievements_list]
    refine List.map_eq_nil_iff.mpr (List.filter_eq_nil_iff.mpr ?_)
    intro a hamem
    simp only [Bool.and_eq_true, Bool.not_eq_true', decide_eq_false_iff_not, not_and]
    intro hnotin hcond
    have hnotold : a.id ∉ player.achievements.map (fun e => e.id) := fun hmem =>
      hnotin (by rw [List.map_append]; exact List.mem_append_left _ hmem)
    apply hnotin
    rw [List.map_append]
    refine List.mem_append_right _ ?_
    rw [List.map_map]
    exact List.mem_map.mpr ⟨a, List.mem_filter.mpr ⟨hamem, by
      simp only [Bool.and_eq_true, Bool.not_eq_true', decide_eq_false_iff_not]
      exact ⟨hnotold, hcond⟩⟩, rfl⟩

/-- Claim C8, witness: the idempotence property evaluated on a player who
earns first_steps and streak_master. -/
theorem C8_achievement_idempotence_witness :
    check_new_achievements
      ((award_achievements achieverPlayer
        (check_new_achievements achieverPlayer)).1) = [] ∧
    ((award_achievements achieverPlayer
        (check_new_achievements achieverPlayer)).1).achievements =
      achieverPlayer.achievements ++ check_new_achievements achieverPlayer :=
  ⟨(C8_achievement_idempotence achieverPlayer).2.2,
   (C8_achievement_idempotence achieverPlayer).2.1⟩

/-- Claim C9, counterexample: the shop engine of achievements.py has no
already-owned check: a player who owns hint_pack and can afford it buys it
again successfully, and the duplicate is appended. -/
theorem C9_already_owned_counterexample :
    "hint_pack" ∈ ownedPlayer.purchased_rewards ∧
    (purchase_reward ownedPlayer "hint_pack").1 = .success 0 ∧
    ((purchase_reward ownedPlayer "hint_pack").2).purchased_rewards =
      ["hint_pack", "hint_pack"] := by
  decide

/-- Claim C9, amended: the legacy engine checks existence, prior ownership
and funds in that order, with the three failure reasons and an in-place
coin deduction on success; the achievements.py engine checks only existence
and funds (two failure reasons, no already-owned check), reports
remaining_coins = coins - cost on success, and both leave the player
untouched on any failure. -/
theorem C9_purchase_amended :
    (∀ player reward_id,
      shop_rewards.find? (fun r => r.id == reward_id) = none →
      purchase_reward player reward_id = (.rewardNotFound, player)) ∧
    (∀ player reward_id reward,
      shop_rewards.find? (fun r => r.id == reward_id) = some reward →
      (player.total_coins < reward.cost →
        purchase_reward player reward_id = (.insufficientCoins, player)) ∧
      (reward.cost ≤ player.total_coins →
        purchase_reward player reward_id =
          (.success (player.total_coins - reward.cost),
           { player with
               total_coins := player.total_coins - reward.cost,
               purchased_rewards := player.purchased_rewards ++ [reward_id] }))) ∧
    (∀ player reward_id,
      legacy_rewards.find? (fun r => r.id == reward_id) = none →
      legacy_purchase_reward player reward_id = (.rewardNotFound, player)) ∧
    (∀ player reward_id reward,
      legacy_rewards.find? (fun r => r.id == reward_id) = some reward →
      (reward_id ∈ player.purchased_rewards →
        legacy_purchase_reward player reward_id = (.alreadyPurchased, player)) ∧
      (reward_id ∉ player.purchased_rewards → player.coins < reward.cost →
        legacy_purchase_reward player reward_id = (.notEnoughCoins, player)) ∧
      (reward_id ∉ player.purchased_rewards → reward.cost ≤ player.coins →
        legacy_purchase_reward player reward_id =
          (.success,
           { coins := player.coins - reward.cost,
             purchased_rewards := player.purchased_rewards ++ [reward_id] }))) := by
  refine ⟨?_, ?_, ?_, ?_⟩
  · intro player reward_id hfind
    simp [purchase_reward, hfind]
  · intro player reward_id reward hfind
    constructor
    · intro hlt
      simp [purchase_reward, hfind, hlt]
    · intro hge
      simp [purchase_reward, hfind, Nat.not_lt.mpr hge]
  · intro player reward_id hfind
    simp [legacy_purchase_reward, hfind]
  · intro player reward_id reward hfind
    refine ⟨?_, ?_, ?_⟩
    · intro hmem
      simp [legacy_purchase_reward, hfind, hmem]
    · intro hmem hlt
      simp [legacy_purchase_reward, hfind, hmem, hlt]
    · intro hmem hge
      simp [legacy_purchase_reward, hfind, hmem, Nat.not_lt.mpr hge]

/-- Claim C9, witness: the amended purchase behavior evaluated on a missing
reward, an owned legacy reward, and a successful legacy purchase. -/
theorem C9_purchase_witness :
    purchase_reward freshPlayer "no_such_reward" = (.rewardNotFound, freshPlayer) ∧
    legacy_purchase_reward lwOwned "theme_dark" = (.alreadyPurchased, lwOwned) ∧
    legacy_purchase_reward lwFresh "theme_dark" =
      (.success, { coins := 0, purchased_rewards := ["theme_dark"] }) :=
  ⟨C9_purchase_amended.1 freshPlayer "no_such_reward" (by decide),
   (C9_purchase_amended.2.2.2 lwOwned "theme_dark"
      { id := "theme_dark", cost := 100 } (by decide)).1 (by decide),
   ((C9_purchase_amended.2.2.2 lwFresh "theme_dark"
      { id := "theme_dark", cost := 100 } (by decide)).2.2 (by decide) (by decide))⟩

end PLA
